import Mathlib

/-!
Verification of the declaration-statement parser/serializer
(`src/parser/src/statements/variable.rs` of the ezno parser crate).

The embedding is shallow: the token stream is a `List Token` threaded
explicitly, fallible parsing returns a `PResult`, and a Rust panic
(`Option::unwrap` on `None`) is modelled by the distinguished outcome
`PResult.panicked`.  External collaborators that are not part of this file
(the span type with its union, the token reader operations, and the
pattern / type / expression sub-parsers) are modelled from the spec, each
marked `Modelled from the spec:` in its doc comment.  Everything else is
translated from the source.
-/

/-- Modelled from the spec: a half-open byte range over source text
(`source_map::Span`, external to this file). -/
structure Span where
  start : Nat
  endPos : Nat
deriving DecidableEq, Repr

/-- Modelled from the spec: union of two spans is the covering range —
minimum start, maximum end. -/
def Span.union (a b : Span) : Span :=
  { start := min a.start b.start, endPos := max a.endPos b.endPos }

/-- Keyword kinds relevant to this component (`TSXKeyword`, restricted to the
three constructors this file matches on). -/
inductive TSXKeyword where
  | Const
  | Let
  | Var
deriving DecidableEq, Repr

/-- Token kinds (`TSXToken`): the kinds this component inspects, plus opaque
kinds consumed by the sub-parsers (identifiers and number literals suffice
for the modelled sub-parsers; `Other` stands for any further kind). -/
inductive TSXToken where
  | Keyword : TSXKeyword → TSXToken
  | Colon
  | Assign
  | Comma
  | Ident : String → TSXToken
  | NumberLiteral : String → TSXToken
  | Other : String → TSXToken
deriving DecidableEq, Repr

/-- A lexical token: kind plus span (Rust `Token(TSXToken, Span)`; the Rust
tuple fields `.0` and `.1` are `kind` and `span` here). -/
structure Token where
  kind : TSXToken
  span : Span
deriving DecidableEq, Repr

/-- Error payloads (`crate::ParseErrors`, restricted to what this component
produces): an unexpected token carrying the expected kinds and the found
kind, or the end-of-stream lexing error (`errors::parse_lexing_error`). -/
inductive ParseErrors where
  | UnexpectedToken (expected : List TSXToken) (found : TSXToken)
  | LexingError
deriving DecidableEq, Repr

/-- A parse error: payload plus position (`ParseError::new(reason, position)`).
The end-of-stream error carries a dummy zero span since no token remains. -/
structure ParseError where
  reason : ParseErrors
  position : Span
deriving DecidableEq, Repr

/-- Modelled from the spec: the end-of-stream error produced by
`errors::parse_lexing_error` when a token was required but the stream was
exhausted. -/
def parse_lexing_error : ParseError :=
  { reason := ParseErrors.LexingError, position := { start := 0, endPos := 0 } }

/-- Outcome of running a parser on a token stream: success with a value and
the remaining stream, a typed parse error (Rust `Err(ParseError)`), or an
abnormal termination (a Rust panic such as `Option::unwrap` on `None`). -/
inductive PResult (α : Type) where
  | ok : α → List Token → PResult α
  | err : ParseError → PResult α
  | panicked : PResult α
deriving DecidableEq, Repr

/-- Sequencing of parse results, the analogue of Rust's `?` operator:
errors and panics short-circuit. -/
def PResult.bind {α β : Type} : PResult α → (α → List Token → PResult β) → PResult β
  | PResult.ok a rest, f => f a rest
  | PResult.err e, _ => PResult.err e
  | PResult.panicked, _ => PResult.panicked

/-- Modelled from the spec: `TokenReader::expect_next(kind)` — consume the
head token if its kind matches, otherwise fail with an unexpected/missing
token error naming the expected kind and carrying the actual token and its
span; fail with the end-of-stream error when nothing remains. -/
def expect_next (expected : TSXToken) (tokens : List Token) : PResult Unit :=
  match tokens with
  | [] => PResult.err parse_lexing_error
  | t :: rest =>
    if t.kind = expected then PResult.ok () rest
    else PResult.err { reason := ParseErrors.UnexpectedToken [expected] t.kind,
                       position := t.span }

/-- Modelled from the spec: an expression AST node produced by the external
expression sub-parser, reduced to the source text it serializes to and its
span. -/
structure Expression where
  text : String
  span : Span
deriving DecidableEq, Repr

/-- Modelled from the spec: the external expression sub-parser
(`Expression::from_reader`), out of scope of this component.  It consumes
one opaque token (an identifier or a number literal) into an expression
carrying that token's text and span; on any other head token or on an
exhausted stream it fails with its own (opaque) error. -/
def Expression.from_reader (tokens : List Token) : PResult Expression :=
  match tokens with
  | { kind := TSXToken.Ident s, span := sp } :: rest =>
      PResult.ok { text := s, span := sp } rest
  | { kind := TSXToken.NumberLiteral s, span := sp } :: rest =>
      PResult.ok { text := s, span := sp } rest
  | t :: _ =>
      PResult.err { reason := ParseErrors.UnexpectedToken [] t.kind, position := t.span }
  | [] => PResult.err parse_lexing_error

/-- Modelled from the spec: `Expression::get_position` — the expression's
stored span. -/
def Expression.get_position (e : Expression) : Span := e.span

/-- Modelled from the spec: expression serialization appends the
expression's source text to the buffer. -/
def Expression.to_string_from_buffer (e : Expression) (buf : String) : String :=
  buf ++ e.text

/-- Modelled from the spec: a binding-pattern name
(`WithComment<VariableField<VariableFieldInSourceCode>>`), reduced to its
source text and span. -/
structure NameNode where
  text : String
  span : Span
deriving DecidableEq, Repr

/-- Modelled from the spec: the external pattern sub-parser for names; it
consumes one identifier token, and fails with its own opaque error
otherwise. -/
def NameNode.from_reader (tokens : List Token) : PResult NameNode :=
  match tokens with
  | { kind := TSXToken.Ident s, span := sp } :: rest =>
      PResult.ok { text := s, span := sp } rest
  | t :: _ =>
      PResult.err { reason := ParseErrors.UnexpectedToken [] t.kind, position := t.span }
  | [] => PResult.err parse_lexing_error

/-- Modelled from the spec: name serialization appends the name's source
text. -/
def NameNode.to_string_from_buffer (n : NameNode) (buf : String) : String :=
  buf ++ n.text

/-- Modelled from the spec: a type-annotation AST node (`TypeReference`),
reduced to its source text and span. -/
structure TypeReference where
  text : String
  span : Span
deriving DecidableEq, Repr

/-- Modelled from the spec: the external type sub-parser
(`TypeReference::from_reader`); it consumes one identifier token as a type
name, failing with its own opaque error otherwise. -/
def TypeReference.from_reader (tokens : List Token) : PResult TypeReference :=
  match tokens with
  | { kind := TSXToken.Ident s, span := sp } :: rest =>
      PResult.ok { text := s, span := sp } rest
  | t :: _ =>
      PResult.err { reason := ParseErrors.UnexpectedToken [] t.kind, position := t.span }
  | [] => PResult.err parse_lexing_error

/-- Modelled from the spec: `TypeReference::get_position` — the stored
span. -/
def TypeReference.get_position (t : TypeReference) : Span := t.span

/-- Modelled from the spec: type-reference serialization appends the type's
source text. -/
def TypeReference.to_string_from_buffer (t : TypeReference) (buf : String) : String :=
  buf ++ t.text

/-- Modelled from the spec: serialization settings
(`ToStringSettingsAndData`, field `.0`; the data component is unused by
this component).  `pretty` controls spacing, `include_types` controls
whether type annotations are emitted. -/
structure ToStringSettings where
  pretty : Bool
  include_types : Bool
deriving DecidableEq, Repr

/-- Modelled from the spec: `ToStringSettings::add_gap` — append one space
in pretty mode, nothing in compact mode. -/
def ToStringSettings.add_gap (s : ToStringSettings) (buf : String) : String :=
  if s.pretty then buf ++ " " else buf

/-- A keyword AST marker (`Keyword<T>`): carries the span of the keyword
token it was parsed from (`Keyword::new(pos)`; the Rust field `.1`). -/
structure Keyword where
  span : Span
deriving DecidableEq, Repr

/-- Constructor `Keyword::new`. -/
def Keyword.new (pos : Span) : Keyword := { span := pos }

/-- `Keyword::get_position`. -/
def Keyword.get_position (k : Keyword) : Span := k.span

/-- Trait `DeclarationExpression`: the compile-time strategy distinguishing
`const` declarations (required initializer) from `let`/`var` declarations
(optional initializer).  The `as_option_mut_expr` mutation hook is not
modelled (no claim concerns it). -/
class DeclarationExpression (α : Type) where
  decl_from_reader : List Token → PResult α
  decl_to_string_from_buffer : α → String → ToStringSettings → Nat → String
  get_decl_position : α → Option Span

/-- Instance for `Option<Expression>` (the let/var strategy): peek for the
assignment token — if present consume it and parse one expression, wrapped
as present; otherwise produce absent without consuming; serialization emits
`" = "` or `"="` then the expression iff present; position is the
expression's span iff present. -/
instance instDeclExprOption : DeclarationExpression (Option Expression) where
  decl_from_reader tokens :=
    match tokens with
    | { kind := TSXToken.Assign, span := _ } :: rest =>
      match Expression.from_reader rest with
      | PResult.ok e r => PResult.ok (some e) r
      | PResult.err e => PResult.err e
      | PResult.panicked => PResult.panicked
    | _ => PResult.ok none tokens
  decl_to_string_from_buffer self buf settings _depth :=
    match self with
    | some expr =>
        expr.to_string_from_buffer (buf ++ (if settings.pretty then " = " else "="))
    | none => buf
  get_decl_position self := self.map Expression.get_position

/-- Instance for `Expression` (the const strategy): expect the assignment
token (`expect_next`), then parse one expression, its errors propagating
unchanged; serialization always emits `" = "` or `"="` then the expression;
position is always the expression's span. -/
instance instDeclExprRequired : DeclarationExpression Expression where
  decl_from_reader tokens :=
    PResult.bind (expect_next TSXToken.Assign tokens) fun _ rest =>
      Expression.from_reader rest
  decl_to_string_from_buffer self buf settings _depth :=
    self.to_string_from_buffer (buf ++ (if settings.pretty then " = " else "="))
  get_decl_position self := some self.get_position

/-- Struct `VariableDeclaration<TExpr>`: one `name[: type][= initializer]`
entry, generic over the strategy. -/
structure VariableDeclaration (α : Type) [DeclarationExpression α] where
  name : NameNode
  type_reference : Option TypeReference
  expression : α

/-- `VariableDeclaration::get_position`: union of the name's span with the
strategy position if reported, else with the type annotation's span if
present, else the name's span alone. -/
def VariableDeclaration.get_position {α : Type} [DeclarationExpression α]
    (d : VariableDeclaration α) : Span :=
  let name_position := d.name.span
  match DeclarationExpression.get_decl_position d.expression with
  | some expr_pos => name_position.union expr_pos
  | none =>
    match d.type_reference with
    | some ty_ref => name_position.union ty_ref.get_position
    | none => name_position

/-- `VariableDeclaration::from_reader`: parse the name, then an optional
`: type` (peek for a colon), then delegate to the strategy's parse. -/
def VariableDeclaration.from_reader (α : Type) [DeclarationExpression α]
    (tokens : List Token) : PResult (VariableDeclaration α) :=
  PResult.bind (NameNode.from_reader tokens) fun name rest =>
    match rest with
    | { kind := TSXToken.Colon, span := _ } :: rest2 =>
      PResult.bind (TypeReference.from_reader rest2) fun type_reference rest3 =>
        PResult.bind (DeclarationExpression.decl_from_reader rest3) fun expression rest4 =>
          PResult.ok { name := name, type_reference := some type_reference,
                       expression := expression } rest4
    | _ =>
      PResult.bind (DeclarationExpression.decl_from_reader rest) fun expression rest2 =>
        PResult.ok { name := name, type_reference := none,
                     expression := expression } rest2

/-- `VariableDeclaration::to_string_from_buffer`: the name, then `": type"`
when type annotations are enabled and present, then the strategy's
serialization of the initializer portion. -/
def VariableDeclaration.to_string_from_buffer {α : Type} [DeclarationExpression α]
    (d : VariableDeclaration α) (buf : String) (settings : ToStringSettings)
    (depth : Nat) : String :=
  let buf := d.name.to_string_from_buffer buf
  let buf :=
    match settings.include_types, d.type_reference with
    | true, some type_reference => type_reference.to_string_from_buffer (buf ++ ": ")
    | _, _ => buf
  DeclarationExpression.decl_to_string_from_buffer d.expression buf settings depth

/-- Enum `VariableStatement`: a keyword tag plus the list of declarations of
the matching strategy. -/
inductive VariableStatement where
  | ConstDeclaration (keyword : Keyword)
      (declarations : List (VariableDeclaration Expression))
  | LetDeclaration (keyword : Keyword)
      (declarations : List (VariableDeclaration (Option Expression)))
  | VarDeclaration (keyword : Keyword)
      (declarations : List (VariableDeclaration (Option Expression)))

/-- Enum `VariableKeyword`: the decoded keyword, carrying its span. -/
inductive VariableKeyword where
  | Const : Keyword → VariableKeyword
  | Let : Keyword → VariableKeyword
  | Var : Keyword → VariableKeyword
deriving DecidableEq, Repr

/-- `VariableKeyword::is_token_variable_keyword`. -/
def VariableKeyword.is_token_variable_keyword (token : TSXToken) : Bool :=
  match token with
  | TSXToken.Keyword TSXKeyword.Const => true
  | TSXToken.Keyword TSXKeyword.Let => true
  | TSXToken.Keyword TSXKeyword.Var => true
  | _ => false

/-- `VariableKeyword::from_reader`: map a const/let/var keyword token to the
tagged variant carrying its span; any other token fails with an
unexpected-token error listing the three accepted kinds. -/
def VariableKeyword.from_reader (token : Token) : Except ParseError VariableKeyword :=
  match token with
  | { kind := TSXToken.Keyword TSXKeyword.Const, span := pos } =>
      Except.ok (VariableKeyword.Const (Keyword.new pos))
  | { kind := TSXToken.Keyword TSXKeyword.Let, span := pos } =>
      Except.ok (VariableKeyword.Let (Keyword.new pos))
  | { kind := TSXToken.Keyword TSXKeyword.Var, span := pos } =>
      Except.ok (VariableKeyword.Var (Keyword.new pos))
  | { kind := token, span := position } =>
      Except.error
        { reason := ParseErrors.UnexpectedToken
            [TSXToken.Keyword TSXKeyword.Const,
             TSXToken.Keyword TSXKeyword.Let,
             TSXToken.Keyword TSXKeyword.Var] token,
          position := position }

/-- `VariableKeyword::as_str`. -/
def VariableKeyword.as_str (k : VariableKeyword) : String :=
  match k with
  | VariableKeyword.Const _ => "const "
  | VariableKeyword.Let _ => "let "
  | VariableKeyword.Var _ => "var "

/-- `VariableKeyword::get_position`. -/
def VariableKeyword.get_position (k : VariableKeyword) : Span :=
  match k with
  | VariableKeyword.Const kw => kw.get_position
  | VariableKeyword.Let kw => kw.get_position
  | VariableKeyword.Var kw => kw.get_position

/-- The let/var declaration-list loop of `VariableStatement::from_reader`:
parse one declaration, push it, then peek — a comma is consumed and the
loop continues, anything else (including an exhausted stream) stops
normally.  `fuel` bounds the iteration count of the Rust `loop`; the
top-level entry supplies more fuel than the stream has tokens, which the
loop can never exhaust since each declaration consumes at least the name
token. -/
def letVarDeclarationLoop (fuel : Nat) (tokens : List Token)
    (declarations : List (VariableDeclaration (Option Expression))) :
    PResult (List (VariableDeclaration (Option Expression))) :=
  match fuel with
  | 0 => PResult.err parse_lexing_error
  | fuel + 1 =>
    PResult.bind (VariableDeclaration.from_reader (Option Expression) tokens)
      fun value rest =>
        match rest with
        | { kind := TSXToken.Comma, span := _ } :: rest2 =>
            letVarDeclarationLoop fuel rest2 (declarations ++ [value])
        | _ => PResult.ok (declarations ++ [value]) rest

/-- The const declaration-list loop of `VariableStatement::from_reader`:
parse one declaration, push it, then `reader.peek().unwrap()` — on an
exhausted stream this unwrap panics (`PResult.panicked`); otherwise a comma
is consumed and the loop continues, anything else stops normally. -/
def constDeclarationLoop (fuel : Nat) (tokens : List Token)
    (declarations : List (VariableDeclaration Expression)) :
    PResult (List (VariableDeclaration Expression)) :=
  match fuel with
  | 0 => PResult.err parse_lexing_error
  | fuel + 1 =>
    PResult.bind (VariableDeclaration.from_reader Expression tokens)
      fun value rest =>
        match rest with
        | [] => PResult.panicked
        | { kind := TSXToken.Comma, span := _ } :: rest2 =>
            constDeclarationLoop fuel rest2 (declarations ++ [value])
        | _ :: _ => PResult.ok (declarations ++ [value]) rest

/-- `VariableStatement::from_reader`: take the next token (end-of-stream is
the lexing error), decode the keyword, then run the declaration-list loop
of the matching strategy and assemble the matching variant. -/
def VariableStatement.from_reader (tokens : List Token) : PResult VariableStatement :=
  match tokens with
  | [] => PResult.err parse_lexing_error
  | t :: rest =>
    match VariableKeyword.from_reader t with
    | Except.error e => PResult.err e
    | Except.ok (VariableKeyword.Let keyword) =>
      PResult.bind (letVarDeclarationLoop (rest.length + 1) rest []) fun declarations r =>
        PResult.ok (VariableStatement.LetDeclaration keyword declarations) r
    | Except.ok (VariableKeyword.Var keyword) =>
      PResult.bind (letVarDeclarationLoop (rest.length + 1) rest []) fun declarations r =>
        PResult.ok (VariableStatement.VarDeclaration keyword declarations) r
    | Except.ok (VariableKeyword.Const keyword) =>
      PResult.bind (constDeclarationLoop (rest.length + 1) rest []) fun declarations r =>
        PResult.ok (VariableStatement.ConstDeclaration keyword declarations) r

/-- Helper `declarations_to_string` inside
`VariableStatement::to_string_from_buffer`: serialize each declaration in
list order; after every non-last one push `,` then the mode-dependent
gap. -/
def declarations_to_string {α : Type} [DeclarationExpression α]
    (declarations : List (VariableDeclaration α)) (buf : String)
    (settings : ToStringSettings) (depth : Nat) : String :=
  match declarations with
  | [] => buf
  | [d] => d.to_string_from_buffer buf settings depth
  | d :: rest =>
      declarations_to_string rest
        (settings.add_gap (d.to_string_from_buffer buf settings depth ++ ","))
        settings depth

/-- `VariableStatement::to_string_from_buffer`: push the keyword's canonical
text (a literal `"let "`, `"var "` or `"const "`), then the declarations. -/
def VariableStatement.to_string_from_buffer (s : VariableStatement) (buf : String)
    (settings : ToStringSettings) (depth : Nat) : String :=
  match s with
  | VariableStatement.LetDeclaration _ declarations =>
      declarations_to_string declarations (buf ++ "let ") settings depth
  | VariableStatement.VarDeclaration _ declarations =>
      declarations_to_string declarations (buf ++ "var ") settings depth
  | VariableStatement.ConstDeclaration _ declarations =>
      declarations_to_string declarations (buf ++ "const ") settings depth

/-- `VariableStatement::get_position`: union of the keyword's span and the
last declaration's span.  The Rust code calls `declarations.last().unwrap()`;
the `none` result models that panic on an empty list. -/
def VariableStatement.get_position (s : VariableStatement) : Option Span :=
  match s with
  | VariableStatement.ConstDeclaration keyword declarations =>
      (declarations.getLast?).map fun d => keyword.span.union d.get_position
  | VariableStatement.LetDeclaration keyword declarations =>
      (declarations.getLast?).map fun d => keyword.span.union d.get_position
  | VariableStatement.VarDeclaration keyword declarations =>
      (declarations.getLast?).map fun d => keyword.span.union d.get_position

/-- Number of declarations held by a statement variant. -/
def VariableStatement.declarationCount (s : VariableStatement) : Nat :=
  match s with
  | VariableStatement.ConstDeclaration _ declarations => declarations.length
  | VariableStatement.LetDeclaration _ declarations => declarations.length
  | VariableStatement.VarDeclaration _ declarations => declarations.length

/-- Join a list of declaration serializations with a separator between
consecutive entries and none after the last. -/
def joinDeclStrings (sep : String) : List String → String
  | [] => ""
  | [s] => s
  | s :: rest => s ++ sep ++ joinDeclStrings sep rest

/-- Span-erased view of an optional-strategy declaration: name text, type
text if any, initializer text if any. -/
def eraseDeclOpt (d : VariableDeclaration (Option Expression)) :
    String × Option String × Option String :=
  (d.name.text, d.type_reference.map TypeReference.text, d.expression.map Expression.text)

/-- Span-erased view of a required-strategy declaration: name text, type
text if any, initializer text. -/
def eraseDeclReq (d : VariableDeclaration Expression) :
    String × Option String × String :=
  (d.name.text, d.type_reference.map TypeReference.text, d.expression.text)

/-- Span-erased view of a declaration statement: the variant tag and the
erased declarations, with every span dropped. -/
inductive ErasedStatement where
  | econst : List (String × Option String × String) → ErasedStatement
  | elet : List (String × Option String × Option String) → ErasedStatement
  | evar : List (String × Option String × Option String) → ErasedStatement
deriving DecidableEq

/-- Erase all spans from a declaration statement. -/
def eraseStatement : VariableStatement → ErasedStatement
  | VariableStatement.ConstDeclaration _ declarations =>
      ErasedStatement.econst (declarations.map eraseDeclReq)
  | VariableStatement.LetDeclaration _ declarations =>
      ErasedStatement.elet (declarations.map eraseDeclOpt)
  | VariableStatement.VarDeclaration _ declarations =>
      ErasedStatement.evar (declarations.map eraseDeclOpt)

/-- Serialization of the initializer portion from the erased data of an
optional-strategy declaration. -/
def initPartOpt (e : Option String) (settings : ToStringSettings) : String :=
  match e with
  | some t => (if settings.pretty then " = " else "=") ++ t
  | none => ""

/-- Serialization of the initializer portion from the erased data of a
required-strategy declaration. -/
def initPartReq (e : String) (settings : ToStringSettings) : String :=
  (if settings.pretty then " = " else "=") ++ e

/-- Serialization of the type-annotation portion from erased data. -/
def typePart (ty : Option String) (settings : ToStringSettings) : String :=
  match settings.include_types, ty with
  | true, some t => ": " ++ t
  | _, _ => ""

/-- Serialization of one optional-strategy declaration from its erased
data. -/
def erasedDeclStringOpt (p : String × Option String × Option String)
    (settings : ToStringSettings) : String :=
  p.1 ++ typePart p.2.1 settings ++ initPartOpt p.2.2 settings

/-- Serialization of one required-strategy declaration from its erased
data. -/
def erasedDeclStringReq (p : String × Option String × String)
    (settings : ToStringSettings) : String :=
  p.1 ++ typePart p.2.1 settings ++ initPartReq p.2.2 settings

/-- Serialization of a whole statement from its erased view. -/
def erasedStatementString (s : ErasedStatement) (settings : ToStringSettings) : String :=
  match s with
  | ErasedStatement.econst ps =>
      "const " ++ joinDeclStrings ("," ++ (if settings.pretty then " " else ""))
        (ps.map fun p => erasedDeclStringReq p settings)
  | ErasedStatement.elet ps =>
      "let " ++ joinDeclStrings ("," ++ (if settings.pretty then " " else ""))
        (ps.map fun p => erasedDeclStringOpt p settings)
  | ErasedStatement.evar ps =>
      "var " ++ joinDeclStrings ("," ++ (if settings.pretty then " " else ""))
        (ps.map fun p => erasedDeclStringOpt p settings)

/-! ## Helper lemmas -/

/-- Every successful exit of the let/var declaration loop has pushed at
least one declaration past the accumulator it started from. -/
theorem letVarDeclarationLoop_ok_length (fuel : Nat) :
    ∀ (tokens : List Token) (acc ds : List (VariableDeclaration (Option Expression)))
      (r : List Token),
      letVarDeclarationLoop fuel tokens acc = PResult.ok ds r →
      acc.length < ds.length := by
  induction fuel with
  | zero =>
    intro tokens acc ds r h
    simp [letVarDeclarationLoop] at h
  | succ n ih =>
    intro tokens acc ds r h
    unfold letVarDeclarationLoop at h
    cases hd : VariableDeclaration.from_reader (Option Expression) tokens <;>
      rw [hd] at h <;> simp only [PResult.bind] at h
    case err => exact absurd h (by simp)
    case panicked => exact absurd h (by simp)
    case ok value rest =>
      split at h
      · have := ih _ _ _ _ h
        simp at this
        simp
        omega
      · cases h
        simp

/-- Every successful exit of the const declaration loop has pushed at least
one declaration past the accumulator it started from. -/
theorem constDeclarationLoop_ok_length (fuel : Nat) :
    ∀ (tokens : List Token) (acc ds : List (VariableDeclaration Expression))
      (r : List Token),
      constDeclarationLoop fuel tokens acc = PResult.ok ds r →
      acc.length < ds.length := by
  induction fuel with
  | zero =>
    intro tokens acc ds r h
    simp [constDeclarationLoop] at h
  | succ n ih =>
    intro tokens acc ds r h
    unfold constDeclarationLoop at h
    cases hd : VariableDeclaration.from_reader Expression tokens <;>
      rw [hd] at h <;> simp only [PResult.bind] at h
    case err => exact absurd h (by simp)
    case panicked => exact absurd h (by simp)
    case ok value rest =>
      split at h
      · exact absurd h (by simp)
      · have := ih _ _ _ _ h
        simp at this
        simp
        omega
      · cases h
        simp

/-! ## Claim theorems -/

/-- C1: after each declaration the parser checks for a comma, consuming and
looping on one and stopping otherwise; but contrary to the claim, when the
stream is exhausted after the last declaration the const path does NOT stop
normally: it panics (the `reader.peek().unwrap()` at the comma check),
unlike the let/var path, which succeeds on the analogous input.  Evaluated
here at the failing input `const x = 1` with nothing following, against the
succeeding `let x = 1`. -/
theorem c1_const_eos_code_bug :
    VariableStatement.from_reader
      [{ kind := TSXToken.Keyword TSXKeyword.Const, span := { start := 0, endPos := 5 } },
       { kind := TSXToken.Ident "x", span := { start := 6, endPos := 7 } },
       { kind := TSXToken.Assign, span := { start := 8, endPos := 9 } },
       { kind := TSXToken.NumberLiteral "1", span := { start := 10, endPos := 11 } }]
      = PResult.panicked
    ∧ VariableStatement.from_reader
      [{ kind := TSXToken.Keyword TSXKeyword.Let, span := { start := 0, endPos := 3 } },
       { kind := TSXToken.Ident "x", span := { start := 4, endPos := 5 } },
       { kind := TSXToken.Assign, span := { start := 6, endPos := 7 } },
       { kind := TSXToken.NumberLiteral "1", span := { start := 8, endPos := 9 } }]
      = PResult.ok
          (VariableStatement.LetDeclaration { span := { start := 0, endPos := 3 } }
            [{ name := { text := "x", span := { start := 4, endPos := 5 } },
               type_reference := none,
               expression := some { text := "1", span := { start := 8, endPos := 9 } } }])
          [] :=
  ⟨rfl, rfl⟩

/-- C2: the required-initializer (const) strategy expects an assignment
token next — a differing head token fails with an unexpected/missing-token
error naming the assignment operator as expected and carrying the actual
token kind and its span, while a present assignment token leads to exactly
the expression sub-parser's result on the remaining stream (its errors
propagating unchanged). -/
theorem c2_required_strategy_expect_assign (tokens : List Token) :
    (∀ (t : Token) (rest : List Token), tokens = t :: rest →
       t.kind ≠ TSXToken.Assign →
       DeclarationExpression.decl_from_reader (α := Expression) tokens
         = PResult.err { reason := ParseErrors.UnexpectedToken [TSXToken.Assign] t.kind,
                         position := t.span })
    ∧ (∀ (sp : Span) (rest : List Token),
       tokens = { kind := TSXToken.Assign, span := sp } :: rest →
       DeclarationExpression.decl_from_reader (α := Expression) tokens
         = Expression.from_reader rest) := by
  constructor
  · intro t rest h hne
    subst h
    simp [DeclarationExpression.decl_from_reader, instDeclExprRequired, expect_next,
      PResult.bind, hne]
  · intro sp rest h
    subst h
    simp [DeclarationExpression.decl_from_reader, instDeclExprRequired, expect_next,
      PResult.bind]

/-- C2 witness: at `const x` the strategy fails naming the assignment
operator (actual token `x` at span 8–9), and at `= 5` it returns the
expression sub-parser's result. -/
theorem c2_witness :
    DeclarationExpression.decl_from_reader (α := Expression)
      [{ kind := TSXToken.Ident "x", span := { start := 8, endPos := 9 } }]
      = PResult.err { reason := ParseErrors.UnexpectedToken [TSXToken.Assign]
                        (TSXToken.Ident "x"),
                      position := { start := 8, endPos := 9 } }
    ∧ DeclarationExpression.decl_from_reader (α := Expression)
      [{ kind := TSXToken.Assign, span := { start := 8, endPos := 9 } },
       { kind := TSXToken.NumberLiteral "5", span := { start := 10, endPos := 11 } }]
      = Expression.from_reader
          [{ kind := TSXToken.NumberLiteral "5", span := { start := 10, endPos := 11 } }] :=
  ⟨(c2_required_strategy_expect_assign _).1
      { kind := TSXToken.Ident "x", span := { start := 8, endPos := 9 } } [] rfl
      (by decide),
   (c2_required_strategy_expect_assign _).2 { start := 8, endPos := 9 }
      [{ kind := TSXToken.NumberLiteral "5", span := { start := 10, endPos := 11 } }] rfl⟩

/-- C3: parsing the token stream of `let x = 1, y = 2` yields a Let
statement of exactly two optional-strategy declarations whose initializers
are the expressions `1` and `2`, and serializing it in pretty mode
reproduces `let x = 1, y = 2` exactly. -/
theorem c3_round_trip_pretty :
    VariableStatement.from_reader
      [{ kind := TSXToken.Keyword TSXKeyword.Let, span := { start := 0, endPos := 3 } },
       { kind := TSXToken.Ident "x", span := { start := 4, endPos := 5 } },
       { kind := TSXToken.Assign, span := { start := 6, endPos := 7 } },
       { kind := TSXToken.NumberLiteral "1", span := { start := 8, endPos := 9 } },
       { kind := TSXToken.Comma, span := { start := 9, endPos := 10 } },
       { kind := TSXToken.Ident "y", span := { start := 11, endPos := 12 } },
       { kind := TSXToken.Assign, span := { start := 13, endPos := 14 } },
       { kind := TSXToken.NumberLiteral "2", span := { start := 15, endPos := 16 } }]
      = PResult.ok
          (VariableStatement.LetDeclaration { span := { start := 0, endPos := 3 } }
            [{ name := { text := "x", span := { start := 4, endPos := 5 } },
               type_reference := none,
               expression := some { text := "1", span := { start := 8, endPos := 9 } } },
             { name := { text := "y", span := { start := 11, endPos := 12 } },
               type_reference := none,
               expression := some { text := "2", span := { start := 15, endPos := 16 } } }])
          []
    ∧ (VariableStatement.LetDeclaration { span := { start := 0, endPos := 3 } }
        [{ name := { text := "x", span := { start := 4, endPos := 5 } },
           type_reference := none,
           expression := some { text := "1", span := { start := 8, endPos := 9 } } },
         { name := { text := "y", span := { start := 11, endPos := 12 } },
           type_reference := none,
           expression := some { text := "2", span := { start := 15, endPos := 16 } } }]
        ).to_string_from_buffer ""
        { pretty := true, include_types := true } 0
      = "let x = 1, y = 2" :=
  ⟨rfl, rfl⟩


/-- Unfolding equation for `VariableStatement::from_reader` on a non-empty
stream. -/
theorem VariableStatement.from_reader_cons (t : Token) (ts : List Token) :
    VariableStatement.from_reader (t :: ts)
      = (match VariableKeyword.from_reader t with
         | Except.error e => PResult.err e
         | Except.ok (VariableKeyword.Let keyword) =>
           PResult.bind (letVarDeclarationLoop (ts.length + 1) ts []) fun declarations r =>
             PResult.ok (VariableStatement.LetDeclaration keyword declarations) r
         | Except.ok (VariableKeyword.Var keyword) =>
           PResult.bind (letVarDeclarationLoop (ts.length + 1) ts []) fun declarations r =>
             PResult.ok (VariableStatement.VarDeclaration keyword declarations) r
         | Except.ok (VariableKeyword.Const keyword) =>
           PResult.bind (constDeclarationLoop (ts.length + 1) ts []) fun declarations r =>
             PResult.ok (VariableStatement.ConstDeclaration keyword declarations) r) := rfl

/-- C6: every declaration statement produced by a successful parse holds a
non-empty declarations list — each loop pushes one declaration before its
first comma check. -/
theorem c6_declarations_nonempty (tokens : List Token) (s : VariableStatement)
    (rest : List Token)
    (h : VariableStatement.from_reader tokens = PResult.ok s rest) :
    0 < s.declarationCount := by
  cases tokens with
  | nil => simp [VariableStatement.from_reader] at h
  | cons t ts =>
    rw [VariableStatement.from_reader_cons] at h
    split at h
    · exact PResult.noConfusion h
    · cases hl : letVarDeclarationLoop (ts.length + 1) ts [] <;>
        rw [hl] at h <;> simp only [PResult.bind] at h
      case ok ds r =>
        cases h
        have := letVarDeclarationLoop_ok_length _ _ _ _ _ hl
        simpa [VariableStatement.declarationCount] using this
      case err => exact PResult.noConfusion h
      case panicked => exact PResult.noConfusion h
    · cases hl : letVarDeclarationLoop (ts.length + 1) ts [] <;>
        rw [hl] at h <;> simp only [PResult.bind] at h
      case ok ds r =>
        cases h
        have := letVarDeclarationLoop_ok_length _ _ _ _ _ hl
        simpa [VariableStatement.declarationCount] using this
      case err => exact PResult.noConfusion h
      case panicked => exact PResult.noConfusion h
    · cases hl : constDeclarationLoop (ts.length + 1) ts [] <;>
        rw [hl] at h <;> simp only [PResult.bind] at h
      case ok ds r =>
        cases h
        have := constDeclarationLoop_ok_length _ _ _ _ _ hl
        simpa [VariableStatement.declarationCount] using this
      case err => exact PResult.noConfusion h
      case panicked => exact PResult.noConfusion h

/-- C6 witness: the parse of `var a` succeeds and its statement holds a
positive number of declarations. -/
theorem c6_witness :
    0 < (VariableStatement.VarDeclaration { span := { start := 0, endPos := 3 } }
          [{ name := { text := "a", span := { start := 4, endPos := 5 } },
             type_reference := none,
             expression := (none : Option Expression) }]).declarationCount :=
  c6_declarations_nonempty
    [{ kind := TSXToken.Keyword TSXKeyword.Var, span := { start := 0, endPos := 3 } },
     { kind := TSXToken.Ident "a", span := { start := 4, endPos := 5 } }]
    _ [] rfl

/-- C7: the optional-initializer (let/var) strategy peeks one token — an
assignment head is consumed and one full expression is parsed, wrapped as
present, the sub-parser's success and error outcomes propagating unchanged;
any other head token yields absent with the stream left exactly as it
was. -/
theorem c7_optional_strategy (tokens : List Token) :
    (∀ (sp : Span) (rest : List Token) (e : Expression) (r : List Token),
       tokens = { kind := TSXToken.Assign, span := sp } :: rest →
       Expression.from_reader rest = PResult.ok e r →
       DeclarationExpression.decl_from_reader (α := Option Expression) tokens
         = PResult.ok (some e) r)
    ∧ (∀ (sp : Span) (rest : List Token) (pe : ParseError),
       tokens = { kind := TSXToken.Assign, span := sp } :: rest →
       Expression.from_reader rest = PResult.err pe →
       DeclarationExpression.decl_from_reader (α := Option Expression) tokens
         = PResult.err pe)
    ∧ (∀ (t : Token) (rest : List Token), tokens = t :: rest →
       t.kind ≠ TSXToken.Assign →
       DeclarationExpression.decl_from_reader (α := Option Expression) tokens
         = PResult.ok none (t :: rest)) := by
  refine ⟨?_, ?_, ?_⟩
  · intro sp rest e r h he
    subst h
    simp [DeclarationExpression.decl_from_reader, instDeclExprOption, he]
  · intro sp rest pe h he
    subst h
    simp [DeclarationExpression.decl_from_reader, instDeclExprOption, he]
  · intro t rest h hne
    subst h
    obtain ⟨k, sp⟩ := t
    cases k
    case Assign => exact absurd rfl hne
    all_goals rfl

/-- C7 witness: at `= 5` the strategy returns the wrapped expression with
the stream consumed, at `= :` it propagates the expression sub-parser's
error, and at a comma head it returns absent leaving the stream intact. -/
theorem c7_witness :
    DeclarationExpression.decl_from_reader (α := Option Expression)
      [{ kind := TSXToken.Assign, span := { start := 6, endPos := 7 } },
       { kind := TSXToken.NumberLiteral "5", span := { start := 8, endPos := 9 } }]
      = PResult.ok (some { text := "5", span := { start := 8, endPos := 9 } }) []
    ∧ DeclarationExpression.decl_from_reader (α := Option Expression)
      [{ kind := TSXToken.Assign, span := { start := 6, endPos := 7 } },
       { kind := TSXToken.Colon, span := { start := 8, endPos := 9 } }]
      = PResult.err { reason := ParseErrors.UnexpectedToken [] TSXToken.Colon,
                      position := { start := 8, endPos := 9 } }
    ∧ DeclarationExpression.decl_from_reader (α := Option Expression)
      [{ kind := TSXToken.Comma, span := { start := 5, endPos := 6 } }]
      = PResult.ok none
          [{ kind := TSXToken.Comma, span := { start := 5, endPos := 6 } }] :=
  ⟨(c7_optional_strategy _).1 { start := 6, endPos := 7 }
      [{ kind := TSXToken.NumberLiteral "5", span := { start := 8, endPos := 9 } }]
      { text := "5", span := { start := 8, endPos := 9 } } [] rfl rfl,
   (c7_optional_strategy _).2.1 { start := 6, endPos := 7 }
      [{ kind := TSXToken.Colon, span := { start := 8, endPos := 9 } }]
      { reason := ParseErrors.UnexpectedToken [] TSXToken.Colon,
        position := { start := 8, endPos := 9 } } rfl rfl,
   (c7_optional_strategy _).2.2
      { kind := TSXToken.Comma, span := { start := 5, endPos := 6 } } [] rfl
      (by decide)⟩

/-- C8: the keyword decoder maps a const/let/var keyword token to the
matching tagged variant carrying exactly that token's span, and every token
of any other kind fails with an unexpected-token error whose expected set
lists exactly the three keyword kinds and which carries the offending token
kind and its span. -/
theorem c8_variable_keyword_from_reader (t : Token) :
    (∀ sp : Span, t = { kind := TSXToken.Keyword TSXKeyword.Const, span := sp } →
       VariableKeyword.from_reader t
         = Except.ok (VariableKeyword.Const { span := sp }))
    ∧ (∀ sp : Span, t = { kind := TSXToken.Keyword TSXKeyword.Let, span := sp } →
       VariableKeyword.from_reader t
         = Except.ok (VariableKeyword.Let { span := sp }))
    ∧ (∀ sp : Span, t = { kind := TSXToken.Keyword TSXKeyword.Var, span := sp } →
       VariableKeyword.from_reader t
         = Except.ok (VariableKeyword.Var { span := sp }))
    ∧ (VariableKeyword.is_token_variable_keyword t.kind = false →
       VariableKeyword.from_reader t
         = Except.error
             { reason := ParseErrors.UnexpectedToken
                 [TSXToken.Keyword TSXKeyword.Const, TSXToken.Keyword TSXKeyword.Let,
                  TSXToken.Keyword TSXKeyword.Var] t.kind,
               position := t.span }) := by
  refine ⟨?_, ?_, ?_, ?_⟩
  · intro sp h
    subst h
    rfl
  · intro sp h
    subst h
    rfl
  · intro sp h
    subst h
    rfl
  · intro h
    obtain ⟨k, sp⟩ := t
    cases k
    case Keyword kw =>
      cases kw <;> simp [VariableKeyword.is_token_variable_keyword] at h
    all_goals rfl

/-- C8 witness: a `let` keyword token at span 0–3 decodes to the Let
variant carrying span 0–3, and a comma token at span 4–5 fails with the
three-keyword expected set, the comma kind, and span 4–5. -/
theorem c8_witness :
    VariableKeyword.from_reader
      { kind := TSXToken.Keyword TSXKeyword.Let, span := { start := 0, endPos := 3 } }
      = Except.ok (VariableKeyword.Let { span := { start := 0, endPos := 3 } })
    ∧ VariableKeyword.from_reader
      { kind := TSXToken.Comma, span := { start := 4, endPos := 5 } }
      = Except.error
          { reason := ParseErrors.UnexpectedToken
              [TSXToken.Keyword TSXKeyword.Const, TSXToken.Keyword TSXKeyword.Let,
               TSXToken.Keyword TSXKeyword.Var] TSXToken.Comma,
            position := { start := 4, endPos := 5 } } :=
  ⟨(c8_variable_keyword_from_reader _).2.1 { start := 0, endPos := 3 } rfl,
   (c8_variable_keyword_from_reader _).2.2.2 (by decide)⟩

/-- C4: for every declaration statement variant, `get_position` is exactly
the covering union — minimum start, maximum end — of the keyword's span and
the last declaration's span. -/
theorem c4_statement_get_position :
    (∀ (kw : Keyword) (ds : List (VariableDeclaration Expression))
       (d : VariableDeclaration Expression), ds.getLast? = some d →
       (VariableStatement.ConstDeclaration kw ds).get_position
         = some { start := min kw.span.start d.get_position.start,
                  endPos := max kw.span.endPos d.get_position.endPos })
    ∧ (∀ (kw : Keyword) (ds : List (VariableDeclaration (Option Expression)))
       (d : VariableDeclaration (Option Expression)), ds.getLast? = some d →
       (VariableStatement.LetDeclaration kw ds).get_position
         = some { start := min kw.span.start d.get_position.start,
                  endPos := max kw.span.endPos d.get_position.endPos })
    ∧ (∀ (kw : Keyword) (ds : List (VariableDeclaration (Option Expression)))
       (d : VariableDeclaration (Option Expression)), ds.getLast? = some d →
       (VariableStatement.VarDeclaration kw ds).get_position
         = some { start := min kw.span.start d.get_position.start,
                  endPos := max kw.span.endPos d.get_position.endPos }) := by
  refine ⟨?_, ?_, ?_⟩ <;>
    intro kw ds d h <;>
    simp [VariableStatement.get_position, h, Span.union]

/-- C4 witness: for `let x = 1` with the keyword at 0–3 and the single
declaration spanning 4–9, the statement position is 0–9. -/
theorem c4_witness :
    (VariableStatement.LetDeclaration { span := { start := 0, endPos := 3 } }
      [{ name := { text := "x", span := { start := 4, endPos := 5 } },
         type_reference := none,
         expression := some { text := "1", span := { start := 8, endPos := 9 } } }]
      ).get_position
      = some { start := 0, endPos := 9 } :=
  (c4_statement_get_position).2.1 { span := { start := 0, endPos := 3 } }
    [{ name := { text := "x", span := { start := 4, endPos := 5 } },
       type_reference := none,
       expression := some { text := "1", span := { start := 8, endPos := 9 } } }]
    { name := { text := "x", span := { start := 4, endPos := 5 } },
      type_reference := none,
      expression := some { text := "1", span := { start := 8, endPos := 9 } } }
    rfl

/-- C5: a declaration's position is the union of its name's span with, in
priority order, the span the strategy reports for the initializer when
there is one (regardless of any type annotation), else the type
annotation's span when present, else the name's span alone. -/
theorem c5_declaration_get_position {α : Type} [DeclarationExpression α]
    (d : VariableDeclaration α) :
    (∀ p : Span, DeclarationExpression.get_decl_position d.expression = some p →
       d.get_position = d.name.span.union p)
    ∧ (DeclarationExpression.get_decl_position d.expression = none →
       ∀ t : TypeReference, d.type_reference = some t →
       d.get_position = d.name.span.union t.get_position)
    ∧ (DeclarationExpression.get_decl_position d.expression = none →
       d.type_reference = none →
       d.get_position = d.name.span) := by
  refine ⟨?_, ?_, ?_⟩
  · intro p hp
    simp [VariableDeclaration.get_position, hp]
  · intro hp t ht
    simp [VariableDeclaration.get_position, hp, ht]
  · intro hp ht
    simp [VariableDeclaration.get_position, hp, ht]

/-- C5 witness: with both an initializer (span 16–17) and a type annotation
(span 7–13) the position unions the name's span with the initializer's;
with only a type annotation it unions with the type's; with neither it is
the name's span alone. -/
theorem c5_witness :
    ({ name := { text := "x", span := { start := 4, endPos := 5 } },
       type_reference := some { text := "number", span := { start := 7, endPos := 13 } },
       expression := some { text := "1", span := { start := 16, endPos := 17 } } }
       : VariableDeclaration (Option Expression)).get_position
      = Span.union { start := 4, endPos := 5 } { start := 16, endPos := 17 }
    ∧ ({ name := { text := "x", span := { start := 4, endPos := 5 } },
         type_reference := some { text := "number", span := { start := 7, endPos := 13 } },
         expression := (none : Option Expression) }
         : VariableDeclaration (Option Expression)).get_position
      = Span.union { start := 4, endPos := 5 } { start := 7, endPos := 13 }
    ∧ ({ name := { text := "x", span := { start := 4, endPos := 5 } },
         type_reference := none,
         expression := (none : Option Expression) }
         : VariableDeclaration (Option Expression)).get_position
      = { start := 4, endPos := 5 } :=
  ⟨(c5_declaration_get_position _).1 { start := 16, endPos := 17 } rfl,
   (c5_declaration_get_position _).2.1 rfl
     { text := "number", span := { start := 7, endPos := 13 } } rfl,
   (c5_declaration_get_position _).2.2 rfl rfl⟩

/-- The mode-dependent gap appended by `add_gap` is one space in pretty
mode and nothing in compact mode. -/
theorem add_gap_eq (settings : ToStringSettings) (buf : String) :
    settings.add_gap buf = buf ++ (if settings.pretty then " " else "") := by
  cases h : settings.pretty <;> simp [ToStringSettings.add_gap, h]

/-- The optional strategy's initializer serialization appends text computed
from the erased initializer only. -/
theorem optExpr_decl_to_string (e : Option Expression) (buf : String)
    (settings : ToStringSettings) (depth : Nat) :
    DeclarationExpression.decl_to_string_from_buffer (α := Option Expression)
      e buf settings depth
      = buf ++ initPartOpt (e.map Expression.text) settings := by
  cases e <;>
    simp [DeclarationExpression.decl_to_string_from_buffer, instDeclExprOption,
      initPartOpt, Expression.to_string_from_buffer, String.append_assoc]

/-- The required strategy's initializer serialization appends text computed
from the erased initializer only. -/
theorem reqExpr_decl_to_string (e : Expression) (buf : String)
    (settings : ToStringSettings) (depth : Nat) :
    DeclarationExpression.decl_to_string_from_buffer (α := Expression)
      e buf settings depth
      = buf ++ initPartReq e.text settings := by
  simp [DeclarationExpression.decl_to_string_from_buffer, instDeclExprRequired,
    initPartReq, Expression.to_string_from_buffer, String.append_assoc]

/-- One optional-strategy declaration serializes to an append of text
computed from its erased view only. -/
theorem declOpt_to_string (d : VariableDeclaration (Option Expression)) (buf : String)
    (settings : ToStringSettings) (depth : Nat) :
    d.to_string_from_buffer buf settings depth
      = buf ++ erasedDeclStringOpt (eraseDeclOpt d) settings := by
  unfold VariableDeclaration.to_string_from_buffer
  cases hi : settings.include_types <;> cases ht : d.type_reference <;>
    simp [hi, ht, NameNode.to_string_from_buffer, TypeReference.to_string_from_buffer,
      optExpr_decl_to_string, erasedDeclStringOpt, eraseDeclOpt, typePart,
      String.append_assoc]

/-- One required-strategy declaration serializes to an append of text
computed from its erased view only. -/
theorem declReq_to_string (d : VariableDeclaration Expression) (buf : String)
    (settings : ToStringSettings) (depth : Nat) :
    d.to_string_from_buffer buf settings depth
      = buf ++ erasedDeclStringReq (eraseDeclReq d) settings := by
  unfold VariableDeclaration.to_string_from_buffer
  cases hi : settings.include_types <;> cases ht : d.type_reference <;>
    simp [hi, ht, NameNode.to_string_from_buffer, TypeReference.to_string_from_buffer,
      reqExpr_decl_to_string, erasedDeclStringReq, eraseDeclReq, typePart,
      String.append_assoc]

/-- Generic factorization of the declaration-list serialization loop into
the separator-joined per-declaration strings, assuming each declaration's
serialization is an append. -/
theorem declarations_to_string_join {α : Type} [DeclarationExpression α]
    (hα : ∀ (d : VariableDeclaration α) (buf : String) (settings : ToStringSettings)
      (depth : Nat), d.to_string_from_buffer buf settings depth
        = buf ++ d.to_string_from_buffer "" settings depth) :
    ∀ (ds : List (VariableDeclaration α)) (buf : String)
      (settings : ToStringSettings) (depth : Nat),
      declarations_to_string ds buf settings depth
        = buf ++ joinDeclStrings ("," ++ (if settings.pretty then " " else ""))
            (ds.map fun d => d.to_string_from_buffer "" settings depth) := by
  intro ds
  induction ds with
  | nil =>
    intro buf settings depth
    simp [declarations_to_string, joinDeclStrings]
  | cons d tail ih =>
    intro buf settings depth
    cases tail with
    | nil =>
      simp [declarations_to_string, joinDeclStrings]
      exact hα d buf settings depth
    | cons d2 tl =>
      show declarations_to_string (d2 :: tl)
          (settings.add_gap (d.to_string_from_buffer buf settings depth ++ ","))
          settings depth = _
      rw [ih, add_gap_eq, hα d buf settings depth]
      simp [joinDeclStrings, String.append_assoc]

/-- An optional-strategy declaration's serialization is an append. -/
theorem declOpt_to_string_append (d : VariableDeclaration (Option Expression))
    (buf : String) (settings : ToStringSettings) (depth : Nat) :
    d.to_string_from_buffer buf settings depth
      = buf ++ d.to_string_from_buffer "" settings depth := by
  rw [declOpt_to_string, declOpt_to_string]
  simp

/-- A required-strategy declaration's serialization is an append. -/
theorem declReq_to_string_append (d : VariableDeclaration Expression)
    (buf : String) (settings : ToStringSettings) (depth : Nat) :
    d.to_string_from_buffer buf settings depth
      = buf ++ d.to_string_from_buffer "" settings depth := by
  rw [declReq_to_string, declReq_to_string]
  simp

/-- Statement serialization appends text computed from the statement's
span-erased view only. -/
theorem statement_to_string_erased (s : VariableStatement) (buf : String)
    (settings : ToStringSettings) (depth : Nat) :
    s.to_string_from_buffer buf settings depth
      = buf ++ erasedStatementString (eraseStatement s) settings := by
  cases s with
  | ConstDeclaration kw ds =>
    show declarations_to_string ds (buf ++ "const ") settings depth = _
    rw [declarations_to_string_join declReq_to_string_append]
    have hm : (ds.map fun d => d.to_string_from_buffer "" settings depth)
        = (ds.map eraseDeclReq).map (fun p => erasedDeclStringReq p settings) := by
      simp only [List.map_map]
      congr 1
      funext d
      rw [declReq_to_string]
      simp
    rw [hm]
    simp [eraseStatement, erasedStatementString, String.append_assoc]
  | LetDeclaration kw ds =>
    show declarations_to_string ds (buf ++ "let ") settings depth = _
    rw [declarations_to_string_join declOpt_to_string_append]
    have hm : (ds.map fun d => d.to_string_from_buffer "" settings depth)
        = (ds.map eraseDeclOpt).map (fun p => erasedDeclStringOpt p settings) := by
      simp only [List.map_map]
      congr 1
      funext d
      rw [declOpt_to_string]
      simp
    rw [hm]
    simp [eraseStatement, erasedStatementString, String.append_assoc]
  | VarDeclaration kw ds =>
    show declarations_to_string ds (buf ++ "var ") settings depth = _
    rw [declarations_to_string_join declOpt_to_string_append]
    have hm : (ds.map fun d => d.to_string_from_buffer "" settings depth)
        = (ds.map eraseDeclOpt).map (fun p => erasedDeclStringOpt p settings) := by
      simp only [List.map_map]
      congr 1
      funext d
      rw [declOpt_to_string]
      simp
    rw [hm]
    simp [eraseStatement, erasedStatementString, String.append_assoc]

/-- C9: statement serialization emits the keyword's canonical lowercase
text followed by a single space, then the declarations' serializations in
list order joined by a comma plus the mode-dependent gap (one space in
pretty mode, nothing in compact mode) with no separator after the last;
and `as_str` likewise returns the canonical lowercase keyword followed by a
single trailing space. -/
theorem c9_serialization_format :
    (∀ (kw : Keyword) (ds : List (VariableDeclaration (Option Expression)))
       (buf : String) (settings : ToStringSettings) (depth : Nat),
       (VariableStatement.LetDeclaration kw ds).to_string_from_buffer buf settings depth
         = buf ++ ("let" ++ " ")
             ++ joinDeclStrings ("," ++ (if settings.pretty then " " else ""))
                  (ds.map fun d => d.to_string_from_buffer "" settings depth))
    ∧ (∀ (kw : Keyword) (ds : List (VariableDeclaration (Option Expression)))
       (buf : String) (settings : ToStringSettings) (depth : Nat),
       (VariableStatement.VarDeclaration kw ds).to_string_from_buffer buf settings depth
         = buf ++ ("var" ++ " ")
             ++ joinDeclStrings ("," ++ (if settings.pretty then " " else ""))
                  (ds.map fun d => d.to_string_from_buffer "" settings depth))
    ∧ (∀ (kw : Keyword) (ds : List (VariableDeclaration Expression))
       (buf : String) (settings : ToStringSettings) (depth : Nat),
       (VariableStatement.ConstDeclaration kw ds).to_string_from_buffer buf settings depth
         = buf ++ ("const" ++ " ")
             ++ joinDeclStrings ("," ++ (if settings.pretty then " " else ""))
                  (ds.map fun d => d.to_string_from_buffer "" settings depth))
    ∧ (∀ kw : Keyword, (VariableKeyword.Let kw).as_str = "let" ++ " ")
    ∧ (∀ kw : Keyword, (VariableKeyword.Var kw).as_str = "var" ++ " ")
    ∧ (∀ kw : Keyword, (VariableKeyword.Const kw).as_str = "const" ++ " ") := by
  refine ⟨?_, ?_, ?_, fun kw => rfl, fun kw => rfl, fun kw => rfl⟩
  · intro kw ds buf settings depth
    show declarations_to_string ds (buf ++ "let ") settings depth = _
    rw [declarations_to_string_join declOpt_to_string_append]
    rfl
  · intro kw ds buf settings depth
    show declarations_to_string ds (buf ++ "var ") settings depth = _
    rw [declarations_to_string_join declOpt_to_string_append]
    rfl
  · intro kw ds buf settings depth
    show declarations_to_string ds (buf ++ "const ") settings depth = _
    rw [declarations_to_string_join declReq_to_string_append]
    rfl

/-- C10: serialization never reads stored span data — statements with equal
span-erased views serialize identically, and likewise for declarations of
either strategy. -/
theorem c10_span_noninterference :
    (∀ s1 s2 : VariableStatement, eraseStatement s1 = eraseStatement s2 →
       ∀ (buf : String) (settings : ToStringSettings) (depth : Nat),
       s1.to_string_from_buffer buf settings depth
         = s2.to_string_from_buffer buf settings depth)
    ∧ (∀ d1 d2 : VariableDeclaration Expression, eraseDeclReq d1 = eraseDeclReq d2 →
       ∀ (buf : String) (settings : ToStringSettings) (depth : Nat),
       d1.to_string_from_buffer buf settings depth
         = d2.to_string_from_buffer buf settings depth)
    ∧ (∀ d1 d2 : VariableDeclaration (Option Expression),
       eraseDeclOpt d1 = eraseDeclOpt d2 →
       ∀ (buf : String) (settings : ToStringSettings) (depth : Nat),
       d1.to_string_from_buffer buf settings depth
         = d2.to_string_from_buffer buf settings depth) := by
  refine ⟨?_, ?_, ?_⟩
  · intro s1 s2 h buf settings depth
    rw [statement_to_string_erased, statement_to_string_erased, h]
  · intro d1 d2 h buf settings depth
    rw [declReq_to_string, declReq_to_string, h]
  · intro d1 d2 h buf settings depth
    rw [declOpt_to_string, declOpt_to_string, h]

/-- C10 witness: two `let x: T = 1` statements that differ only in every
stored span serialize to the same text, and likewise at the declaration
level for both strategies. -/
theorem c10_witness :
    (VariableStatement.LetDeclaration { span := { start := 0, endPos := 3 } }
      [{ name := { text := "x", span := { start := 4, endPos := 5 } },
         type_reference := some { text := "T", span := { start := 7, endPos := 8 } },
         expression := some { text := "1", span := { start := 11, endPos := 12 } } }]
      ).to_string_from_buffer "" { pretty := true, include_types := true } 0
      = (VariableStatement.LetDeclaration { span := { start := 90, endPos := 93 } }
      [{ name := { text := "x", span := { start := 94, endPos := 95 } },
         type_reference := some { text := "T", span := { start := 97, endPos := 98 } },
         expression := some { text := "1", span := { start := 101, endPos := 102 } } }]
      ).to_string_from_buffer "" { pretty := true, include_types := true } 0
    ∧ ({ name := { text := "y", span := { start := 0, endPos := 1 } },
         type_reference := none,
         expression := { text := "2", span := { start := 4, endPos := 5 } } }
         : VariableDeclaration Expression).to_string_from_buffer ""
         { pretty := false, include_types := true } 0
      = ({ name := { text := "y", span := { start := 50, endPos := 51 } },
           type_reference := none,
           expression := { text := "2", span := { start := 54, endPos := 55 } } }
           : VariableDeclaration Expression).to_string_from_buffer ""
           { pretty := false, include_types := true } 0
    ∧ ({ name := { text := "z", span := { start := 0, endPos := 1 } },
         type_reference := none,
         expression := (none : Option Expression) }
         : VariableDeclaration (Option Expression)).to_string_from_buffer ""
         { pretty := true, include_types := false } 0
      = ({ name := { text := "z", span := { start := 20, endPos := 21 } },
           type_reference := none,
           expression := (none : Option Expression) }
           : VariableDeclaration (Option Expression)).to_string_from_buffer ""
           { pretty := true, include_types := false } 0 :=
  ⟨c10_span_noninterference.1 _ _ rfl "" { pretty := true, include_types := true } 0,
   c10_span_noninterference.2.1 _ _ rfl "" { pretty := false, include_types := true } 0,
   c10_span_noninterference.2.2 _ _ rfl "" { pretty := true, include_types := false } 0⟩
